import Mathlib

/-!
Verification development for the zouppp repository: a shallow embedding of
the PPPoE discovery engine (package pppoe, file datapath_linux.go's second
document) and the PPP protocol multiplexer (package lcp, file ppp.go),
together with theorems settling the frozen claims about them.

Bytes are modelled as natural numbers taken modulo 256 where decoded;
byte sequences as lists. Machine words (uint16 protocol numbers, session
ids, the uint8 request id) are naturals with explicit reductions modulo
2 to the 16 or 2 to the 8 where the Go code would overflow. Channels are
modelled by identifiers; the effect of submitting a packet to a channel is
recorded in explicit result structures.
-/

/-- A byte sequence, entries understood modulo 256. -/
abbrev ByteSeq := List Nat

/-- A link-layer (MAC) address, six bytes. -/
abbrev MAC := List Nat

/-- Big-endian 16-bit decode of the first two bytes of a sequence
(binary.BigEndian.Uint16 on a slice of length at least 2; 0 if shorter,
which the sources never do). -/
def be16 : ByteSeq → Nat
  | a :: b :: _ => (a % 256) * 256 + b % 256
  | _ => 0

/-! ## PPP frames and the multiplexer (src/lcp/ppp.go) -/

/-- PPPPacket from ppp.go: a PPP frame, 2-byte protocol number plus payload.
The payload Serializer is modelled by its bytes (StaticSerializer). -/
structure PPPPacket where
  proto : Nat
  payload : ByteSeq
deriving DecidableEq

/-- PPPPacket.Serialize from ppp.go: protocol number in network byte order
followed by the payload bytes, no padding. The static payload serializer
never fails, so the result is total. -/
def PPPPacket.Serialize (p : PPPPacket) : ByteSeq :=
  [p.proto / 256 % 256, p.proto % 256] ++ p.payload

/-- PPPPacket.Parse from ppp.go: rejects inputs whose length is at most 2
(the source guard is len(buf) <= 2), otherwise reads the protocol number
from the first two bytes and keeps the rest as payload. -/
def PPPPacket.Parse (buf : ByteSeq) : Except Unit PPPPacket :=
  if buf.length ≤ 2 then Except.error ()
  else Except.ok { proto := be16 buf, payload := buf.drop 2 }

/-- Modelled from the spec: the PPP protocol-number constants (ProtoLCP and
friends) are defined outside src/; the spec's glossary fixes LCP = 0xC021 and
the others are the standard PPP assigned numbers the spec names. -/
def ProtoLCP : Nat := 0xc021

/-- Modelled from the spec: PAP protocol number (standard assignment). -/
def ProtoPAP : Nat := 0xc023

/-- Modelled from the spec: CHAP protocol number (standard assignment). -/
def ProtoCHAP : Nat := 0xc223

/-- Modelled from the spec: IPCP protocol number (standard assignment). -/
def ProtoIPCP : Nat := 0x8021

/-- Modelled from the spec: IPv6CP protocol number (standard assignment). -/
def ProtoIPv6CP : Nat := 0x8057

/-- Modelled from the spec: IPv4 protocol number (standard assignment). -/
def ProtoIPv4 : Nat := 0x0021

/-- Modelled from the spec: IPv6 protocol number (standard assignment). -/
def ProtoIPv6 : Nat := 0x0057

/-- The well-known protocol numbers enumerated by the switch statement in
sendProtocolRejct: CHAP, IPCP, LCP, PAP, IPv6CP, IPv4, IPv6. -/
def wellKnownProtos : List Nat :=
  [ProtoCHAP, ProtoIPCP, ProtoLCP, ProtoPAP, ProtoIPv6CP, ProtoIPv4, ProtoIPv6]

/-- Modelled from the spec: the LCP Protocol-Reject code constant
(CodeProtocolReject) is defined outside src/; the standard LCP code is 8.
Only its identity matters to the claims. -/
def CodeProtocolReject : Nat := 8

/-- An LCP control packet as built by sendProtocolRejct (the lcp Pkt type's
definition lives outside src/; the fields set by the source are Code, ID and
Payload). -/
structure LcpPkt where
  code : Nat
  id : Nat
  payload : ByteSeq
deriving DecidableEq

/-- PPP.sendProtocolRejct from ppp.go, as a function of the current uint8
request-id counter and the received unknown-protocol frame b. The source
copies b's first two bytes, decodes them, returns silently for the
well-known protocols, and otherwise increments reqID (uint8, hence mod 256),
builds an LCP Protocol-Reject whose payload is the two copied protocol bytes
followed by the whole frame b, and submits it to the shared send channel
(the submitted packet is returned here, with the updated counter). -/
def PPP.sendProtocolRejct (reqID : Nat) (b : ByteSeq) : Option LcpPkt × Nat :=
  if be16 b ∈ wellKnownProtos then (none, reqID)
  else
    (some { code := CodeProtocolReject, id := (reqID + 1) % 256,
            payload := b.take 2 ++ b },
     (reqID + 1) % 256)

/-- The observable effects of one PPP.relay call: the frame delivered to a
registered protocol's receive channel (channel id paired with the payload),
the Protocol-Reject packet submitted to the shared send channel, and the
request-id counter afterwards. -/
structure RelayEffects where
  delivered : Option (Nat × ByteSeq)
  reject : Option LcpPkt
  reqID : Nat
deriving DecidableEq

/-- The registry map relayChanList, protocol number to receive-channel id.
Kept as an association list with at most one entry per key (Go map). -/
abbrev Registry := List (Nat × Nat)

/-- PPP.relay from ppp.go: frames of length at most 2 are dropped with no
effect; otherwise the payload is handed to the channel registered for the
decoded protocol number (if any) and sendProtocolRejct runs on the frame
regardless. -/
def PPP.relay (registry : Registry) (reqID : Nat) (buf : ByteSeq) : RelayEffects :=
  if buf.length ≤ 2 then { delivered := none, reject := none, reqID := reqID }
  else
    let delivered := (registry.lookup (be16 buf)).map (fun ch => (ch, buf.drop 2))
    let sp := PPP.sendProtocolRejct reqID buf
    { delivered := delivered, reject := sp.1, reqID := sp.2 }

/-- PPP.Register from ppp.go: creates a receive channel (its fresh id is a
parameter here) and stores it for protocol p, replacing any previous
mapping; every registrant shares the one send channel. -/
def PPP.Register (registry : Registry) (p : Nat) (ch : Nat) : Registry :=
  (p, ch) :: registry.filter (fun e => e.1 != p)

/-- A Go runtime panic observable in the modelled code. -/
inductive GoPanic where
  | closeNilChannel
deriving DecidableEq

/-- PPP.UnRegister from ppp.go: closes relayChanList[p] and deletes the
entry. A Go map access for an absent key yields the zero value, a nil
channel, and close(nil) panics: that is the error case here. -/
def PPP.UnRegister (registry : Registry) (p : Nat) : Except GoPanic Registry :=
  match registry.lookup p with
  | some _ => Except.ok (registry.filter (fun e => e.1 != p))
  | none => Except.error GoPanic.closeNilChannel

/-! ## PPPoE discovery engine (package pppoe, second document of
src/datapath/datapath_linux.go) -/

/-- The PPPoE discovery packet codes (CodePADI and friends; the numeric
values live in the codec outside src/, only their identity matters). -/
inductive Code where
  | codePADI
  | codePADO
  | codePADR
  | codePADS
  | codePADT
  | codeSession
deriving DecidableEq

/-- A PPPoE discovery tag, a TLV element: uint16 type plus value bytes
(the Tag interface with its TagByteSlice carrier; only the fields the
sources read are modelled). -/
structure Tag where
  tagType : Nat
  value : ByteSeq
deriving DecidableEq

/-- Modelled from the spec: the tag type constants are defined in the codec
outside src/; RFC 2516, which the spec follows, assigns Service-Name 0x0101. -/
def TagTypeServiceName : Nat := 0x0101

/-- Modelled from the spec: AC-Cookie tag type, RFC 2516 value 0x0104. -/
def TagTypeACCookie : Nat := 0x0104

/-- Modelled from the spec: Relay-Session-Id tag type, RFC 2516 value 0x0110. -/
def TagTypeRelaySessionID : Nat := 0x0110

/-- A PPPoE discovery packet: the Packet struct whose fields Code,
SessionID, Tags and Payload are the ones the sources read and write. -/
structure Packet where
  code : Code
  sessionID : Nat
  tags : List Tag
  payload : ByteSeq
deriving DecidableEq

/-- Modelled from the spec: Packet.GetTag (defined in the codec outside
src/) returns the packet's tags of the requested type, echoed verbatim in
their original order. -/
def Packet.GetTag (p : Packet) (t : Nat) : List Tag :=
  p.tags.filter (fun tg => tg.tagType == t)

/-- The four discovery states, named as the source constants. -/
inductive PPPoEState where
  | pppoeStateInitial
  | pppoeStateDialing
  | pppoeStateOpen
  | pppoeStateClosed
deriving DecidableEq

/-- DefaultTimeout from the source: 3 * time.Second, in seconds here. -/
def DefaultTimeout : Nat := 3

/-- DefaultRetry from the source. -/
def DefaultRetry : Nat := 3

/-- EtherTypePPPoESession from the source. -/
def EtherTypePPPoESession : Nat := 0x8864

/-- EtherTypePPPoEDiscovery from the source. -/
def EtherTypePPPoEDiscovery : Nat := 0x8863

/-- Modelled from the spec: etherconn.BroadCastMAC, the well-known
broadcast address constant of the L2 transport collaborator. -/
def BroadCastMAC : MAC := [0xff, 0xff, 0xff, 0xff, 0xff, 0xff]

/-- The PPPoE struct: the fields the modelled operations read or write
(serviceName, sessionID, tags, acMAC, state, timeout, retry, debug).
Logger, wait group, conn, cancel function and recvChan are effects or
collaborators abstracted by the environments below. -/
structure PPPoE where
  serviceName : ByteSeq
  sessionID : Nat
  tags : List Tag
  acMAC : MAC
  state : PPPoEState
  timeout : Nat
  retry : Nat
  debug : Bool
deriving DecidableEq

/-- Modifier: a function providing custom configuration to NewPPPoE.
WithDebug carries its flag; WithTags carries a Go slice, nil (none) or a
concrete list (some). -/
inductive Modifier where
  | withDebug (d : Bool)
  | withTags (t : Option (List Tag))

/-- Application of one Modifier, following WithDebug and WithTags from the
source: WithTags returns without effect when its argument is nil, and
otherwise replaces the whole tag list. -/
def applyModifier (p : PPPoE) : Modifier → PPPoE
  | Modifier.withDebug d => { p with debug := d }
  | Modifier.withTags none => p
  | Modifier.withTags (some t) => { p with tags := t }

/-- The state of the fresh PPPoE value inside NewPPPoE right before the
option modifiers run: default timeout and retry, and a single service-name
tag holding the (empty) configured service name. -/
def pppoeDefaults : PPPoE :=
  { serviceName := []
    sessionID := 0
    tags := [{ tagType := TagTypeServiceName, value := [] }]
    acMAC := []
    state := PPPoEState.pppoeStateInitial
    timeout := DefaultTimeout
    retry := DefaultRetry
    debug := false }

/-- NewPPPoE from the source: defaults, then the option modifiers in
order, then state Initial. -/
def NewPPPoE (options : List Modifier) : PPPoE :=
  options.foldl applyModifier pppoeDefaults

/-- PPPoE.buildPADT from the source: code PADT, the current session id,
no tags. -/
def PPPoE.buildPADT (p : PPPoE) : Packet :=
  { code := Code.codePADT, sessionID := p.sessionID, tags := [], payload := [] }

/-- PPPoE.buildPADI from the source: code PADI, session id zero, the
configured tags. -/
def PPPoE.buildPADI (p : PPPoE) : Packet :=
  { code := Code.codePADI, sessionID := 0, tags := p.tags, payload := [] }

/-- PPPoE.buildPADRWithPADO from the source: code PADR, session id zero;
tags are a fresh service-name tag, then every configured tag whose type is
not service-name, then the PADO's AC-Cookie tags, then its
Relay-Session-Id tags. -/
def PPPoE.buildPADRWithPADO (p : PPPoE) (pado : Packet) : Packet :=
  { code := Code.codePADR
    sessionID := 0
    tags :=
      ({ tagType := TagTypeServiceName, value := p.serviceName } ::
        p.tags.filter (fun t => !(t.tagType == TagTypeServiceName)))
      ++ pado.GetTag TagTypeACCookie
      ++ pado.GetTag TagTypeRelaySessionID
    payload := [] }

/-- What one ReadPkt call on the transport yields inside getResponse:
a timeout (etherconn.ErrTimeOut), a fatal read error, bytes that fail
Packet.Parse, or a successfully parsed packet with its sender's MAC. -/
inductive ReadOutcome where
  | timeoutErr
  | fatalErr
  | garbage
  | pkt (p : Packet) (src : MAC)

/-- One iteration's interaction with the transport: whether WritePktTo
succeeds, and what the subsequent read yields. -/
structure Attempt where
  writeOk : Bool
  read : ReadOutcome

/-- The transport environment of a retry loop: the attempt outcomes,
indexed by iteration. -/
abbrev Env := Nat → Attempt

/-- The outcome of getResponse: the matching response with the sender's
MAC, a transport write error, a fatal read error, or retry exhaustion
(the "faile to recv expect response" error, the spec's Timeout). -/
inductive GetRespResult where
  | ok (resp : Packet) (src : MAC)
  | writeError
  | readError
  | respTimeout
deriving DecidableEq

/-- The trace of one getResponse run: its result, how many WritePktTo
send attempts it performed, and the read deadlines it set (one per read,
each the configured timeout). -/
structure GetRespTrace where
  result : GetRespResult
  sends : Nat
  deadlines : List Nat
deriving DecidableEq

/-- The retry loop of getResponse: at most k more iterations, the next
being iteration i. Each iteration sends (write failure aborts), sets the
read deadline to the timeout, reads, aborts on a fatal read error,
retries after a timeout or an unparseable buffer, and returns the first
response whose code matches; exhaustion yields respTimeout. -/
def getResponseAux (code : Code) (tmo : Nat) (env : Env) : Nat → Nat → GetRespTrace
  | _, 0 => { result := GetRespResult.respTimeout, sends := 0, deadlines := [] }
  | i, k+1 =>
    if (env i).writeOk = false then
      { result := GetRespResult.writeError, sends := 1, deadlines := [] }
    else
      match (env i).read with
      | ReadOutcome.fatalErr =>
        { result := GetRespResult.readError, sends := 1, deadlines := [tmo] }
      | ReadOutcome.timeoutErr =>
        let t := getResponseAux code tmo env (i+1) k
        { result := t.result, sends := t.sends + 1, deadlines := tmo :: t.deadlines }
      | ReadOutcome.garbage =>
        let t := getResponseAux code tmo env (i+1) k
        { result := t.result, sends := t.sends + 1, deadlines := tmo :: t.deadlines }
      | ReadOutcome.pkt q src =>
        if q.code = code then
          { result := GetRespResult.ok q src, sends := 1, deadlines := [tmo] }
        else
          let t := getResponseAux code tmo env (i+1) k
          { result := t.result, sends := t.sends + 1, deadlines := tmo :: t.deadlines }

/-- PPPoE.getResponse from the source: serializes req (the codec cannot
fail on these packets), then runs the retry loop for p.retry iterations
with read deadline p.timeout. req and dst reach the wire; the responses
the wire produces are abstracted by env. -/
def PPPoE.getResponse (p : PPPoE) (req : Packet) (code : Code) (dst : MAC)
    (env : Env) : GetRespTrace :=
  getResponseAux code p.timeout env 0 p.retry

/-- The errors PPPoE.Dial can return, and success. -/
inductive DialResult where
  | success
  | errTransport
  | errTimeout
  | errRejected
deriving DecidableEq

/-- How a getResponse failure surfaces from Dial: write and fatal read
errors are transport failures, retry exhaustion is the timeout failure. -/
def mapGetRespErr : GetRespResult → DialResult
  | GetRespResult.ok _ _ => DialResult.success
  | GetRespResult.writeError => DialResult.errTransport
  | GetRespResult.readError => DialResult.errTransport
  | GetRespResult.respTimeout => DialResult.errTimeout

/-- PPPoE.Dial from the source: stores Dialing, broadcasts the PADI and
awaits a PADO (capturing the AC's MAC from the response, nil on failure),
unicasts the PADR built from the PADO and awaits a PADS; a PADS with
session id 0 is the AC rejection; otherwise the session id is recorded and
the state becomes Open. The deferred handler stores Closed whenever the
final state is not Open. env1 and env2 are the transport environments of
the two retry loops. -/
def PPPoE.Dial (p : PPPoE) (env1 env2 : Env) : DialResult × PPPoE :=
  match (p.getResponse p.buildPADI Code.codePADO BroadCastMAC env1).result with
  | GetRespResult.ok pado src =>
    match (p.getResponse (p.buildPADRWithPADO pado) Code.codePADS src env2).result with
    | GetRespResult.ok pads _src2 =>
      if pads.sessionID = 0 then
        (DialResult.errRejected,
         { p with acMAC := src, state := PPPoEState.pppoeStateClosed })
      else
        (DialResult.success,
         { p with acMAC := src, sessionID := pads.sessionID,
                  state := PPPoEState.pppoeStateOpen })
    | r =>
      (mapGetRespErr r, { p with acMAC := src, state := PPPoEState.pppoeStateClosed })
  | r =>
    (mapGetRespErr r, { p with acMAC := [], state := PPPoEState.pppoeStateClosed })

/-- One frame handed to the transport: the discovery packet, the ethertype
it is tagged with, and the destination MAC. -/
structure SentPkt where
  pkt : Packet
  etherType : Nat
  dst : MAC
deriving DecidableEq

/-- The outcome of PPPoE.WriteTo: the byte count with the frame that went
out, the not-open error, or the transport send error. -/
inductive WriteToResult where
  | ok (n : Nat) (sent : SentPkt)
  | errNotOpen
  | errSend
deriving DecidableEq

/-- PPPoE.WriteTo from the source: fails unless the state is Open;
otherwise wraps the payload in a Session-code packet with the current
session id, sends it to the AC's MAC with the session ethertype, and
returns the payload length. connOk tells whether the transport write
succeeds (the codec cannot fail on these packets). -/
def PPPoE.WriteTo (p : PPPoE) (payload : ByteSeq) (connOk : Bool) : WriteToResult :=
  if p.state ≠ PPPoEState.pppoeStateOpen then WriteToResult.errNotOpen
  else
    let pkt : Packet :=
      { code := Code.codeSession, sessionID := p.sessionID, tags := [],
        payload := payload }
    if connOk then
      WriteToResult.ok payload.length
        { pkt := pkt, etherType := EtherTypePPPoESession, dst := p.acMAC }
    else WriteToResult.errSend

/-- The outcome of PPPoE.Close: the returned error, the PADT frame that
was handed to the transport (none when the state was not Open), and
whether that transport write succeeded (true when nothing was sent). -/
structure CloseResult where
  err : Option Unit
  sent : Option SentPkt
  sendOk : Bool
deriving DecidableEq

/-- PPPoE.Close from the source: when the state is Open it builds the PADT
and writes it to the AC's MAC with the discovery ethertype, logging (not
returning) the write error, and falls through to return nil; when the
state is not Open it returns nil at once. The state field is never
written. connOk tells whether the PADT write succeeds. -/
def PPPoE.Close (p : PPPoE) (connOk : Bool) : CloseResult × PPPoE :=
  if p.state = PPPoEState.pppoeStateOpen then
    ({ err := none
       sent := some { pkt := p.buildPADT, etherType := EtherTypePPPoEDiscovery,
                      dst := p.acMAC }
       sendOk := connOk }, p)
  else
    ({ err := none, sent := none, sendOk := true }, p)

/-! ## The number of service-name tags in a tag list (for the PADI claim) -/

/-- How many tags of a given type a tag list contains. -/
def countTagType (t : Nat) (tags : List Tag) : Nat :=
  (tags.filter (fun tg => tg.tagType == t)).length

/-- Whether a list of construction options contains no non-nil WithTags
option (a nil WithTags is a no-op in the source). -/
def noTagsOverride : List Modifier → Bool
  | [] => true
  | Modifier.withTags (some _) :: _ => false
  | _ :: rest => noTagsOverride rest

/-- Folding the option modifiers never changes the tag list when no
non-nil WithTags option is present. -/
theorem foldl_applyModifier_tags :
    ∀ (opts : List Modifier) (r : PPPoE), noTagsOverride opts = true →
      (opts.foldl applyModifier r).tags = r.tags := by
  intro opts
  induction opts with
  | nil => intro r _; rfl
  | cons op rest ih =>
    intro r h
    cases op with
    | withDebug d => exact ih { r with debug := d } h
    | withTags t =>
      cases t with
      | none => exact ih r h
      | some ts => simp [noTagsOverride] at h

/-! ## Theorems for the claims about the PPP multiplexer -/

/-- Claim C10: UnRegister(p) has the unstated precondition that p is
currently registered; when p has no mapping in the registry, UnRegister
closes a nil channel and panics instead of acting as a no-op. -/
theorem claim_C10_unregister_panics (registry : Registry) (p : Nat)
    (h : registry.lookup p = none) :
    PPP.UnRegister registry p = Except.error GoPanic.closeNilChannel := by
  unfold PPP.UnRegister
  rw [h]

/-- Witness for C10: the empty registry has no mapping for the IPv4
protocol number, and UnRegister panics on it. -/
theorem claim_C10_witness :
    ([] : Registry).lookup ProtoIPv4 = none ∧
    PPP.UnRegister [] ProtoIPv4 = Except.error GoPanic.closeNilChannel :=
  ⟨rfl, claim_C10_unregister_panics [] ProtoIPv4 rfl⟩

/-- Counterexample to C5 as stated: an input of exactly 2 bytes does not
parse successfully (the guard is len <= 2, not len < 2), and the receive
path drops the 2-byte frame as well. -/
theorem claim_C5_counterexample :
    PPPPacket.Parse [0xc0, 0x21] = Except.error () ∧
    PPP.relay [] 0 [0xc0, 0x21] = { delivered := none, reject := none, reqID := 0 } := by
  exact ⟨rfl, rfl⟩

/-- Claim C5 amended: parsing a PPP frame fails with the too-short error
exactly when the input has 2 or fewer bytes (so an exactly-2-byte input
fails rather than yielding an empty payload); longer inputs parse into the
protocol number and the remaining payload; and the receive path drops
exactly the frames of length at most 2: a frame of length at most 2 has no
effect, while a longer frame is processed, its payload delivered to the
channel registered for its protocol number (when one is) and the frame
handed to protocol-reject evaluation. -/
theorem claim_C5_amended_short_frames (buf : ByteSeq) (registry : Registry)
    (reqID : Nat) :
    (PPPPacket.Parse buf = Except.error () ↔ buf.length ≤ 2) ∧
    (2 < buf.length →
      PPPPacket.Parse buf = Except.ok { proto := be16 buf, payload := buf.drop 2 }) ∧
    (buf.length ≤ 2 →
      PPP.relay registry reqID buf = { delivered := none, reject := none, reqID := reqID }) ∧
    (2 < buf.length →
      PPP.relay registry reqID buf =
        { delivered := (registry.lookup (be16 buf)).map (fun ch => (ch, buf.drop 2))
          reject := (PPP.sendProtocolRejct reqID buf).1
          reqID := (PPP.sendProtocolRejct reqID buf).2 }) := by
  refine ⟨?_, ?_, ?_, ?_⟩
  · unfold PPPPacket.Parse
    by_cases h : buf.length ≤ 2 <;> simp [h]
  · intro h
    unfold PPPPacket.Parse
    rw [if_neg (by omega)]
  · intro h
    unfold PPP.relay
    rw [if_pos h]
  · intro h
    unfold PPP.relay
    rw [if_neg (by omega)]

/-- Witness for the amended C5 at a 3-byte frame with a registered channel
for its protocol number 0x0102. -/
theorem claim_C5_witness :
    (PPPPacket.Parse [1, 2, 3] = Except.error () ↔ ([1, 2, 3] : ByteSeq).length ≤ 2) ∧
    (2 < ([1, 2, 3] : ByteSeq).length →
      PPPPacket.Parse [1, 2, 3] =
        Except.ok { proto := be16 [1, 2, 3], payload := ([1, 2, 3] : ByteSeq).drop 2 }) ∧
    (([1, 2, 3] : ByteSeq).length ≤ 2 →
      PPP.relay [(0x0102, 44)] 5 [1, 2, 3] =
        { delivered := none, reject := none, reqID := 5 }) ∧
    (2 < ([1, 2, 3] : ByteSeq).length →
      PPP.relay [(0x0102, 44)] 5 [1, 2, 3] =
        { delivered := (([(0x0102, 44)] : Registry).lookup (be16 [1, 2, 3])).map
            (fun ch => (ch, ([1, 2, 3] : ByteSeq).drop 2))
          reject := (PPP.sendProtocolRejct 5 [1, 2, 3]).1
          reqID := (PPP.sendProtocolRejct 5 [1, 2, 3]).2 }) :=
  claim_C5_amended_short_frames [1, 2, 3] [(0x0102, 44)] 5

/-- Claim C4: a received frame longer than 2 bytes whose protocol number is
not one of the well-known protocols makes the multiplexer submit an LCP
Protocol-Reject with the incremented request id whose payload is the two
original protocol-number bytes followed by the whole original frame; for
the well-known protocol numbers no reject is emitted. -/
theorem claim_C4_protocol_reject (registry : Registry) (reqID : Nat)
    (buf : ByteSeq) (hlen : 2 < buf.length) :
    (be16 buf ∉ wellKnownProtos →
      (PPP.relay registry reqID buf).reject =
        some { code := CodeProtocolReject, id := (reqID + 1) % 256,
               payload := buf.take 2 ++ buf }) ∧
    (be16 buf ∈ wellKnownProtos → (PPP.relay registry reqID buf).reject = none) := by
  have hn : ¬ buf.length ≤ 2 := by omega
  constructor
  · intro hmem
    simp [PPP.relay, PPP.sendProtocolRejct, hn, hmem]
  · intro hmem
    simp [PPP.relay, PPP.sendProtocolRejct, hn, hmem]

/-- Witness for C4: the unknown protocol number 0x00FF of the spec's
example produces the reject packet with request id 8 after counter 7. -/
theorem claim_C4_witness :
    (PPP.relay [] 7 [0, 255, 170]).reject =
      some { code := CodeProtocolReject, id := 8, payload := [0, 255, 0, 255, 170] } := by
  simpa using (claim_C4_protocol_reject [] 7 [0, 255, 170] (by decide)).1 (by decide)

/-! ## Theorems for the claims about the PADI tag set -/

/-- Counterexample to C9 as stated: an instance configured with a non-nil
WithTags list holding only an AC-Cookie tag builds a PADI with no
service-name tag at all, because WithTags replaces the tag set wholesale. -/
theorem claim_C9_counterexample :
    countTagType TagTypeServiceName
      ((NewPPPoE [Modifier.withTags (some [{ tagType := TagTypeACCookie, value := [1] }])]).buildPADI).tags = 0 := by
  decide

/-- Claim C9 amended: for every instance configured with no non-nil
WithTags option the PADI built by Dial contains the service-name tag
exactly once by type; a non-nil WithTags list replaces the tag set
wholesale, so the PADI then carries exactly the provided tags. -/
theorem claim_C9_amended_padi_tags (opts : List Modifier) (ts : List Tag)
    (h : noTagsOverride opts = true) :
    countTagType TagTypeServiceName ((NewPPPoE opts).buildPADI).tags = 1 ∧
    ((NewPPPoE [Modifier.withTags (some ts)]).buildPADI).tags = ts := by
  constructor
  · have ht := foldl_applyModifier_tags opts pppoeDefaults h
    unfold NewPPPoE PPPoE.buildPADI countTagType
    rw [ht]
    decide
  · rfl

/-- Witness for the amended C9: a debug-only configuration keeps the
single service-name tag, and a wholesale override carries over verbatim. -/
theorem claim_C9_witness :
    countTagType TagTypeServiceName
      ((NewPPPoE [Modifier.withDebug true]).buildPADI).tags = 1 ∧
    ((NewPPPoE [Modifier.withTags
        (some [{ tagType := TagTypeACCookie, value := [1] }])]).buildPADI).tags =
      [{ tagType := TagTypeACCookie, value := [1] }] :=
  claim_C9_amended_padi_tags [Modifier.withDebug true]
    [{ tagType := TagTypeACCookie, value := [1] }] rfl

/-! ## Retry-loop exhaustion (for the timeout claim) -/

/-- An attempt that cannot end the retry loop with a response or a
transport failure: the write succeeds and the read yields a timeout, an
unparseable buffer, or a packet of the wrong code. -/
def attemptExhausts (code : Code) (a : Attempt) : Bool :=
  a.writeOk && (match a.read with
    | ReadOutcome.fatalErr => false
    | ReadOutcome.pkt q _ => !(q.code == code)
    | ReadOutcome.timeoutErr => true
    | ReadOutcome.garbage => true)

/-- When every remaining attempt exhausts, the retry loop performs exactly
one send and sets exactly one deadline (equal to the timeout) per
iteration and ends with the retry-exhaustion result. -/
theorem getResponseAux_exhaust (code : Code) (tmo : Nat) (env : Env) :
    ∀ (k i : Nat), (∀ j, j < k → attemptExhausts code (env (i + j)) = true) →
      getResponseAux code tmo env i k =
        { result := GetRespResult.respTimeout, sends := k,
          deadlines := List.replicate k tmo } := by
  intro k
  induction k with
  | zero => intro i _; rfl
  | succ k ih =>
    intro i h
    have h0 : attemptExhausts code (env i) = true := by
      simpa using h 0 (Nat.succ_pos k)
    have hw : (env i).writeOk = true := by
      unfold attemptExhausts at h0
      exact (Bool.and_eq_true _ _).mp h0 |>.1
    have hrest : ∀ j, j < k → attemptExhausts code (env (i + 1 + j)) = true := by
      intro j hj
      have := h (j + 1) (Nat.succ_lt_succ hj)
      have harith : i + (j + 1) = i + 1 + j := by omega
      rwa [harith] at this
    have hrec := ih (i + 1) hrest
    unfold getResponseAux
    cases hr : (env i).read with
    | fatalErr =>
      exfalso
      unfold attemptExhausts at h0
      rw [hw, hr] at h0
      simp at h0
    | timeoutErr => simp [hw, hr, hrec, List.replicate]
    | garbage => simp [hw, hr, hrec, List.replicate]
    | pkt q src =>
      have hq : ¬ q.code = code := by
        unfold attemptExhausts at h0
        rw [hw, hr] at h0
        simpa using h0
      simp [hw, hr, hq, hrec, List.replicate]

/-! ## Theorems for the claims about Dial -/

/-- Claim C3: if no matching response ever arrives within the time budget
(every attempt's write goes out and its read yields a timeout, garbage or
a wrong-code packet), the retry loop performs exactly retry send attempts,
each read waiting under a deadline of the configured timeout, and then
fails with the retry-exhaustion (Timeout) error, which Dial returns; the
defaults are retry = 3 and timeout = 3 seconds. -/
theorem claim_C3_timeout_after_retries (p : PPPoE) (env1 env2 : Env)
    (h : ∀ j, j < p.retry → attemptExhausts Code.codePADO (env1 j) = true) :
    p.getResponse p.buildPADI Code.codePADO BroadCastMAC env1 =
      { result := GetRespResult.respTimeout, sends := p.retry,
        deadlines := List.replicate p.retry p.timeout } ∧
    (p.Dial env1 env2).1 = DialResult.errTimeout ∧
    DefaultRetry = 3 ∧ DefaultTimeout = 3 := by
  have hg : p.getResponse p.buildPADI Code.codePADO BroadCastMAC env1 =
      { result := GetRespResult.respTimeout, sends := p.retry,
        deadlines := List.replicate p.retry p.timeout } := by
    unfold PPPoE.getResponse
    exact getResponseAux_exhaust Code.codePADO p.timeout env1 p.retry 0
      (by simpa using h)
  refine ⟨hg, ?_, rfl, rfl⟩
  unfold PPPoE.Dial
  rw [hg]
  rfl

/-- Claim C1: a Dial run in which a PADS response with session id 0
arrives (after some PADO) returns the Rejected error, and the discovery
state field ends in Closed, not Open. -/
theorem claim_C1_pads_zero_rejected (p : PPPoE) (env1 env2 : Env)
    (pado pads : Packet) (src src2 : MAC)
    (h1 : (p.getResponse p.buildPADI Code.codePADO BroadCastMAC env1).result =
      GetRespResult.ok pado src)
    (h2 : (p.getResponse (p.buildPADRWithPADO pado) Code.codePADS src env2).result =
      GetRespResult.ok pads src2)
    (h0 : pads.sessionID = 0) :
    (p.Dial env1 env2).1 = DialResult.errRejected ∧
    (p.Dial env1 env2).2.state = PPPoEState.pppoeStateClosed := by
  have e : p.Dial env1 env2 =
      (DialResult.errRejected,
       { p with acMAC := src, state := PPPoEState.pppoeStateClosed }) := by
    unfold PPPoE.Dial
    rw [h1]
    simp only []
    rw [h2]
    simp only []
    rw [if_pos h0]
  rw [e]
  exact ⟨rfl, rfl⟩

/-- Claim C2: a Dial run in which a valid PADO is followed by a PADS with
a nonzero session id succeeds, the state becomes Open, the session id is
recorded, and every subsequent WriteTo wraps the payload in a Session-code
packet carrying that session id, sent to the AC's captured MAC with the
session ethertype, returning the payload length. -/
theorem claim_C2_dial_success_writeto (p : PPPoE) (env1 env2 : Env)
    (pado pads : Packet) (src src2 : MAC) (payload : ByteSeq)
    (h1 : (p.getResponse p.buildPADI Code.codePADO BroadCastMAC env1).result =
      GetRespResult.ok pado src)
    (h2 : (p.getResponse (p.buildPADRWithPADO pado) Code.codePADS src env2).result =
      GetRespResult.ok pads src2)
    (hnz : pads.sessionID ≠ 0) :
    (p.Dial env1 env2).1 = DialResult.success ∧
    (p.Dial env1 env2).2.state = PPPoEState.pppoeStateOpen ∧
    (p.Dial env1 env2).2.sessionID = pads.sessionID ∧
    (p.Dial env1 env2).2.WriteTo payload true =
      WriteToResult.ok payload.length
        { pkt := { code := Code.codeSession, sessionID := pads.sessionID,
                   tags := [], payload := payload }
          etherType := EtherTypePPPoESession
          dst := src } := by
  have e : p.Dial env1 env2 =
      (DialResult.success,
       { p with acMAC := src, sessionID := pads.sessionID,
                state := PPPoEState.pppoeStateOpen }) := by
    unfold PPPoE.Dial
    rw [h1]
    simp only []
    rw [h2]
    simp only []
    rw [if_neg hnz]
  rw [e]
  refine ⟨rfl, rfl, rfl, ?_⟩
  unfold PPPoE.WriteTo
  simp

/-! ## Concrete transport environments for the witnesses -/

/-- The AC's MAC in the concrete scenarios. -/
def macAC : MAC := [2, 3, 4, 5, 6, 7]

/-- A well-formed PADO response. -/
def padoPkt : Packet :=
  { code := Code.codePADO, sessionID := 0, tags := [], payload := [] }

/-- A PADS response carrying session id 0x1234. -/
def padsPkt : Packet :=
  { code := Code.codePADS, sessionID := 0x1234, tags := [], payload := [] }

/-- A PADS response carrying session id 0 (the AC rejection). -/
def padsPkt0 : Packet :=
  { code := Code.codePADS, sessionID := 0, tags := [], payload := [] }

/-- An environment whose every read yields the PADO from the AC. -/
def envPADO : Env := fun _ => { writeOk := true, read := ReadOutcome.pkt padoPkt macAC }

/-- An environment whose every read yields the PADS with session id 0x1234. -/
def envPADS : Env := fun _ => { writeOk := true, read := ReadOutcome.pkt padsPkt macAC }

/-- An environment whose every read yields the rejecting PADS (session id 0). -/
def envPADS0 : Env := fun _ => { writeOk := true, read := ReadOutcome.pkt padsPkt0 macAC }

/-- An environment in which every read times out: no response ever
arrives within the time budget. -/
def envNothing : Env := fun _ => { writeOk := true, read := ReadOutcome.timeoutErr }

/-- A freshly constructed instance with the default configuration. -/
def pppoe0 : PPPoE := NewPPPoE []

/-- The instance after a successful Dial (PADO then PADS 0x1234). -/
def pppoeOpen0 : PPPoE := (pppoe0.Dial envPADO envPADS).2

/-- Witness for C1: with the concrete PADO and the rejecting PADS, Dial
returns Rejected and the state ends Closed. -/
theorem claim_C1_witness :
    (pppoe0.Dial envPADO envPADS0).1 = DialResult.errRejected ∧
    (pppoe0.Dial envPADO envPADS0).2.state = PPPoEState.pppoeStateClosed :=
  claim_C1_pads_zero_rejected pppoe0 envPADO envPADS0 padoPkt padsPkt0 macAC macAC
    (by decide) (by decide) (by decide)

/-- Witness for C2: with the concrete PADO and the PADS carrying 0x1234,
Dial succeeds, the state is Open, and WriteTo wraps a 2-byte payload into
a Session packet with session id 0x1234 for the AC's MAC. -/
theorem claim_C2_witness :
    (pppoe0.Dial envPADO envPADS).1 = DialResult.success ∧
    (pppoe0.Dial envPADO envPADS).2.state = PPPoEState.pppoeStateOpen ∧
    (pppoe0.Dial envPADO envPADS).2.sessionID = padsPkt.sessionID ∧
    (pppoe0.Dial envPADO envPADS).2.WriteTo [9, 9] true =
      WriteToResult.ok ([9, 9] : ByteSeq).length
        { pkt := { code := Code.codeSession, sessionID := padsPkt.sessionID,
                   tags := [], payload := [9, 9] }
          etherType := EtherTypePPPoESession
          dst := macAC } :=
  claim_C2_dial_success_writeto pppoe0 envPADO envPADS padoPkt padsPkt macAC macAC
    [9, 9] (by decide) (by decide) (by decide)

/-- Witness for C3: the default instance with an environment that never
answers performs exactly 3 sends, sets 3 deadlines of 3 seconds, and Dial
fails with the Timeout error. -/
theorem claim_C3_witness :
    pppoe0.getResponse pppoe0.buildPADI Code.codePADO BroadCastMAC envNothing =
      { result := GetRespResult.respTimeout, sends := pppoe0.retry,
        deadlines := List.replicate pppoe0.retry pppoe0.timeout } ∧
    (pppoe0.Dial envNothing envNothing).1 = DialResult.errTimeout ∧
    DefaultRetry = 3 ∧ DefaultTimeout = 3 :=
  claim_C3_timeout_after_retries pppoe0 envNothing envNothing (by decide)

/-! ## Theorems for the claims about Close -/

/-- Counterexample to C6 as stated: after Close() on the Open instance,
WriteTo does not return an error; the state is still Open and the session
packet goes out exactly as before Close. -/
theorem claim_C6_counterexample :
    ((pppoeOpen0.Close true).2).state = PPPoEState.pppoeStateOpen ∧
    ((pppoeOpen0.Close true).2).WriteTo [1] true =
      WriteToResult.ok 1
        { pkt := { code := Code.codeSession, sessionID := 0x1234,
                   tags := [], payload := [1] }
          etherType := EtherTypePPPoESession
          dst := macAC } := by
  constructor <;> decide

/-- Claim C6 amended: Close() never changes the instance; after Close()
on an Open instance the state remains Open and every subsequent WriteTo
behaves exactly as it would have before the Close (in particular it still
sends session packets rather than returning an error). -/
theorem claim_C6_amended_close_keeps_writable (p : PPPoE) (connOk : Bool)
    (payload : ByteSeq) (c2 : Bool) :
    ((p.Close connOk).2).state = p.state ∧
    ((p.Close connOk).2).WriteTo payload c2 = p.WriteTo payload c2 := by
  have e : (p.Close connOk).2 = p := by
    unfold PPPoE.Close
    by_cases h : p.state = PPPoEState.pppoeStateOpen <;> simp [h]
  rw [e]
  exact ⟨rfl, rfl⟩

/-- Counterexample to C7 as stated: on the Open instance with a failing
transport, Close attempts the PADT send, the send fails, and Close still
returns nil rather than a non-nil error. -/
theorem claim_C7_counterexample :
    (pppoeOpen0.Close false).1.sendOk = false ∧
    (pppoeOpen0.Close false).1.sent =
      some { pkt := { code := Code.codePADT, sessionID := 0x1234,
                      tags := [], payload := [] }
             etherType := EtherTypePPPoEDiscovery
             dst := macAC } ∧
    (pppoeOpen0.Close false).1.err = none := by
  refine ⟨?_, ?_, ?_⟩ <;> decide

/-- Claim C7 amended: Close() with state Open builds and sends a PADT for
the current session id to the AC's MAC; a PADT send failure is logged, not
surfaced, so Close returns nil whether or not the send succeeds; Close()
with state not Open sends nothing and returns nil. -/
theorem claim_C7_amended_close_padt (p : PPPoE) (connOk : Bool) :
    (p.state = PPPoEState.pppoeStateOpen →
      (p.Close connOk).1.sent =
        some { pkt := { code := Code.codePADT, sessionID := p.sessionID,
                        tags := [], payload := [] }
               etherType := EtherTypePPPoEDiscovery
               dst := p.acMAC } ∧
      (p.Close connOk).1.err = none) ∧
    (p.state ≠ PPPoEState.pppoeStateOpen →
      (p.Close connOk).1.sent = none ∧ (p.Close connOk).1.err = none) := by
  constructor
  · intro h
    unfold PPPoE.Close PPPoE.buildPADT
    rw [if_pos h]
    exact ⟨rfl, rfl⟩
  · intro h
    unfold PPPoE.Close
    rw [if_neg h]
    exact ⟨rfl, rfl⟩

/-- Witness for the amended C7: the opened concrete instance sends the
PADT for session 0x1234 and Close returns nil even though the transport
write fails. -/
theorem claim_C7_witness :
    (pppoeOpen0.Close false).1.sent =
      some { pkt := { code := Code.codePADT, sessionID := pppoeOpen0.sessionID,
                      tags := [], payload := [] }
             etherType := EtherTypePPPoEDiscovery
             dst := pppoeOpen0.acMAC } ∧
    (pppoeOpen0.Close false).1.err = none :=
  (claim_C7_amended_close_padt pppoeOpen0 false).1 (by decide)

/-! ## State sequences produced by Dial and Close (for the invariant claim) -/

/-- An operation on a PPPoE instance, with the transport environments it
interacts with. -/
inductive Op where
  | dial (env1 env2 : Env)
  | close (connOk : Bool)

/-- One operation: the discovery states it stores, in order, and the
resulting instance. Dial stores Dialing first and its final state second
(the deferred handler's Closed, or Open); Close stores nothing. -/
def stepOp (p : PPPoE) : Op → List PPPoEState × PPPoE
  | Op.dial e1 e2 =>
    ([PPPoEState.pppoeStateDialing, (p.Dial e1 e2).2.state], (p.Dial e1 e2).2)
  | Op.close c => ([], (p.Close c).2)

/-- Running a sequence of operations: the concatenation of the stored
states and the final instance. -/
def runOps (p : PPPoE) : List Op → List PPPoEState × PPPoE
  | [] => ([], p)
  | op :: rest =>
    let s := stepOp p op
    let r := runOps s.2 rest
    (s.1 ++ r.1, r.2)

/-- The state sequence of a run: the starting state followed by every
state stored by the operations. -/
def stateTrace (p : PPPoE) (ops : List Op) : List PPPoEState :=
  p.state :: (runOps p ops).1

/-- Whether a state sequence contains an Open state immediately followed
by a Dialing state. -/
def openThenDialing : List PPPoEState → Bool
  | PPPoEState.pppoeStateOpen :: PPPoEState.pppoeStateDialing :: _ => true
  | _ :: rest => openThenDialing rest
  | [] => false

/-- Whether every Dial in the sequence is invoked while the state is not
Open. -/
def dialNotWhileOpen (p : PPPoE) : List Op → Bool
  | [] => true
  | Op.dial e1 e2 :: rest =>
    (p.state != PPPoEState.pppoeStateOpen) && dialNotWhileOpen (p.Dial e1 e2).2 rest
  | Op.close c :: rest => dialNotWhileOpen (p.Close c).2 rest

/-- A single state never matches the adjacent Open-Dialing pattern. -/
theorem openThenDialing_singleton (a : PPPoEState) : openThenDialing [a] = false := by
  cases a <;> rfl

/-- Prepending a state other than Open cannot create the pattern at the
front. -/
theorem openThenDialing_cons_ne (a : PPPoEState) (l : List PPPoEState)
    (h : a ≠ PPPoEState.pppoeStateOpen) :
    openThenDialing (a :: l) = openThenDialing l := by
  cases a with
  | pppoeStateInitial => cases l <;> rfl
  | pppoeStateDialing => cases l <;> rfl
  | pppoeStateOpen => exact absurd rfl h
  | pppoeStateClosed => cases l <;> rfl

/-- Close leaves the instance unchanged. -/
theorem close_snd (p : PPPoE) (c : Bool) : (p.Close c).2 = p := by
  unfold PPPoE.Close
  by_cases h : p.state = PPPoEState.pppoeStateOpen <;> simp [h]

/-- Counterexample to C8 as stated: Dial, invoked a second time on the
instance opened by a successful Dial, stores Dialing right after Open, so
this reachable state sequence has an Open state followed by a Dialing
state. -/
theorem claim_C8_counterexample :
    stateTrace pppoe0 [Op.dial envPADO envPADS, Op.dial envNothing envNothing] =
      [PPPoEState.pppoeStateInitial, PPPoEState.pppoeStateDialing,
       PPPoEState.pppoeStateOpen, PPPoEState.pppoeStateDialing,
       PPPoEState.pppoeStateClosed] ∧
    openThenDialing
      (stateTrace pppoe0 [Op.dial envPADO envPADS, Op.dial envNothing envNothing]) =
      true := by
  constructor <;> decide

/-- Claim C8 amended: in every run of Dial and Close operations in which
Dial is never invoked while the state is Open, an Open state is never
followed by a Dialing state; only invoking Dial again on an Open instance
stores Dialing right after Open. -/
theorem claim_C8_amended_no_open_to_dialing :
    ∀ (ops : List Op) (p : PPPoE), dialNotWhileOpen p ops = true →
      openThenDialing (stateTrace p ops) = false := by
  intro ops
  induction ops with
  | nil =>
    intro p _
    exact openThenDialing_singleton p.state
  | cons op rest ih =>
    intro p h
    cases op with
    | close c =>
      have h' : dialNotWhileOpen p rest = true := by
        unfold dialNotWhileOpen at h
        rwa [close_snd] at h
      have e : stateTrace p (Op.close c :: rest) = stateTrace p rest := by
        simp [stateTrace, runOps, stepOp, close_snd]
      rw [e]
      exact ih p h'
    | dial e1 e2 =>
      have hb := h
      unfold dialNotWhileOpen at hb
      have hne : p.state ≠ PPPoEState.pppoeStateOpen := by
        have := (Bool.and_eq_true _ _).mp hb |>.1
        simpa using this
      have h' : dialNotWhileOpen (p.Dial e1 e2).2 rest = true :=
        (Bool.and_eq_true _ _).mp hb |>.2
      have e : stateTrace p (Op.dial e1 e2 :: rest) =
          p.state :: PPPoEState.pppoeStateDialing :: stateTrace (p.Dial e1 e2).2 rest := by
        simp [stateTrace, runOps, stepOp]
      rw [e]
      rw [openThenDialing_cons_ne p.state _ hne]
      rw [openThenDialing_cons_ne PPPoEState.pppoeStateDialing _ (by simp)]
      exact ih (p.Dial e1 e2).2 h'

/-- Witness for the amended C8: one failing Dial followed by a Close from
the fresh instance never shows Open followed by Dialing. -/
theorem claim_C8_witness :
    dialNotWhileOpen pppoe0 [Op.dial envNothing envNothing, Op.close true] = true ∧
    openThenDialing
      (stateTrace pppoe0 [Op.dial envNothing envNothing, Op.close true]) = false :=
  ⟨by decide,
   claim_C8_amended_no_open_to_dialing [Op.dial envNothing envNothing, Op.close true]
     pppoe0 (by decide)⟩
